import Mathlib

/-!
Verification of the weather e-paper display pipeline (`weather.py`).

The source is shallowly embedded: JSON field presence is modelled with
`Option`, Python numbers with `ℚ` (exact rationals) and `ℤ`, raised
exceptions with `Except`, and the PIL drawing calls of the composer with an
ordered list of abstract draw operations.  Module-level configuration that
the Python reads from the environment (trash days, units, CSV toggle, icon
assets on disk, the wall clock) is passed to the embedded functions as
explicit parameters.
-/

namespace Weather

/-! ## Raw response data model

Mirrors the JSON shape read by `process_weather_data`: `data['current']`,
`data['daily'][0]`, `data.get("alerts", [])`.  A `none` models an absent
JSON key; a `List` models a JSON array (which may be empty even when the
key is present). -/

/-- One entry of `current['weather']`. -/
structure RawWeatherEntry where
  description : Option String
  icon : Option String
deriving DecidableEq, Repr

/-- `daily[0]['temp']`. -/
structure RawDailyTemp where
  max : Option ℚ
  min : Option ℚ
deriving DecidableEq, Repr

/-- One entry of `daily`. -/
structure RawDaily where
  temp : Option RawDailyTemp
  pop : Option ℚ
deriving DecidableEq, Repr

/-- One entry of `alerts`. -/
structure RawAlert where
  event : Option String
deriving DecidableEq, Repr

/-- The `current` section. -/
structure RawCurrent where
  temp : Option ℚ
  feels_like : Option ℚ
  humidity : Option ℤ
  wind_speed : Option ℚ
  weather : Option (List RawWeatherEntry)
deriving DecidableEq, Repr

/-- A raw OpenWeather one-call response, restricted to the keys the
extractor reads. -/
structure RawResponse where
  current : Option RawCurrent
  daily : Option (List RawDaily)
  alerts : Option (List RawAlert)
deriving DecidableEq, Repr

/-! ## Python exceptions raised during extraction -/

/-- The exceptions `process_weather_data` can raise: `KeyError(key)` from a
dict subscript on an absent key, `IndexError` from `[0]` on an empty list. -/
inductive PyError where
  | keyError (key : String)
  | indexError
deriving DecidableEq, Repr

/-- `d[k]`: dict subscript, raising `KeyError(k)` when the key is absent. -/
def getKey {α : Type} (k : String) : Option α → Except PyError α
  | some v => .ok v
  | none => .error (.keyError k)

/-- `l[0]`: list subscript, raising `IndexError` on an empty list. -/
def getIndex0 {α : Type} : List α → Except PyError α
  | [] => .error .indexError
  | x :: _ => .ok x

/-! ## The WeatherRecord produced by the extractor -/

/-- The flat dict built by `process_weather_data` (field names as in the
source). -/
structure WeatherRecord where
  temp_current : ℚ
  feels_like : ℚ
  humidity : ℤ
  wind : ℚ
  report : String
  icon_code : String
  temp_max : ℚ
  temp_min : ℚ
  precip_percent : ℚ
  alert_count : ℕ
  alert_names : String
deriving DecidableEq, Repr

/-- Python `str.title()` over a character list: an alphabetic character is
uppercased when the previous character was not alphabetic and lowercased
otherwise; non-alphabetic characters pass through. -/
def titleAux : Bool → List Char → List Char
  | _, [] => []
  | prevAlpha, c :: cs =>
    (if c.isAlpha then (if prevAlpha then c.toLower else c.toUpper) else c)
      :: titleAux c.isAlpha cs

/-- Python `str.title()`. -/
def title (s : String) : String := ⟨titleAux false s.data⟩

/-- `alert["event"]` over the alerts list, in order: the first alert entry
lacking the `event` key raises `KeyError("event")`. -/
def getEvents : List RawAlert → Except PyError (List String)
  | [] => .ok []
  | a :: rest => do
    let e ← getKey "event" a.event
    let es ← getEvents rest
    .ok (e :: es)

/-- `", ".join(alert["event"] for alert in alerts)`. -/
def joinEvents (alerts : List RawAlert) : Except PyError String := do
  let es ← getEvents alerts
  .ok (String.intercalate ", " es)

/-- `process_weather_data` (weather.py lines 102-126), with dict lookups in
the source's evaluation order: `data['current']`, `data['daily'][0]`,
`data.get("alerts", [])`, the `", ".join(...)` of event names, then the
fields of the result dict in literal order.  The `except KeyError` clause
of the source logs and re-raises, so every failure propagates; the `Except`
result models that no partial record escapes. -/
def process_weather_data (data : RawResponse) : Except PyError WeatherRecord := do
  let current ← getKey "current" data.current
  let dailyList ← getKey "daily" data.daily
  let daily ← getIndex0 dailyList
  let alerts := data.alerts.getD []
  let alert_count := alerts.length
  let event_names ← joinEvents alerts
  let temp_current ← getKey "temp" current.temp
  let feels_like ← getKey "feels_like" current.feels_like
  let humidity ← getKey "humidity" current.humidity
  let wind ← getKey "wind_speed" current.wind_speed
  let weatherList ← getKey "weather" current.weather
  let w0 ← getIndex0 weatherList
  let description ← getKey "description" w0.description
  let icon ← getKey "icon" w0.icon
  let dailyTemp ← getKey "temp" daily.temp
  let temp_max ← getKey "max" dailyTemp.max
  let temp_min ← getKey "min" dailyTemp.min
  let pop ← getKey "pop" daily.pop
  .ok ⟨temp_current, feels_like, humidity, wind, title description, icon,
       temp_max, temp_min, pop * 100, alert_count, event_names⟩

/-- All fields the extraction dereferences are present: the nine required
leaf fields (with `weather` and `daily` nonempty) and, because the source
also subscripts `alert["event"]`, an `event` key on every alert entry. -/
def requiredOk (d : RawResponse) : Bool :=
  match d.current, d.daily with
  | some c, some (dl :: _) =>
    (match c.weather with
     | some (w :: _) =>
       c.temp.isSome && c.feels_like.isSome && c.humidity.isSome &&
       c.wind_speed.isSome && w.description.isSome && w.icon.isSome
     | _ => false)
    && (match dl.temp with
        | some t => t.max.isSome && t.min.isSome
        | none => false)
    && dl.pop.isSome
    && (d.alerts.getD []).all (fun a => a.event.isSome)
  | _, _ => false

/-- The nine required fields named by the spec (current temp, feels_like,
humidity, wind_speed, weather[0].description, weather[0].icon,
daily[0].temp.max, daily[0].temp.min, daily[0].pop) are all present in the
raw response.  Unlike `requiredOk` it says nothing about alert entries. -/
def specRequiredPresent (d : RawResponse) : Bool :=
  match d.current, d.daily with
  | some c, some (dl :: _) =>
    (match c.weather with
     | some (w :: _) =>
       c.temp.isSome && c.feels_like.isSome && c.humidity.isSome &&
       c.wind_speed.isSome && w.description.isSome && w.icon.isSome
     | _ => false)
    && (match dl.temp with
        | some t => t.max.isSome && t.min.isSome
        | none => false)
    && dl.pop.isSome
  | _, _ => false

end Weather

namespace Weather

/-! ## Decimal formatting

Python's `format(x, '.0f')` / `'.1f'` rounds the value to the requested
number of decimal places, ties to even. -/

/-- Round to the nearest integer, ties to even (the rounding used by
Python's fixed-point `format`). -/
def roundHalfEven (q : ℚ) : ℤ :=
  if q - ⌊q⌋ < 1/2 then ⌊q⌋
  else if 1/2 < q - ⌊q⌋ then ⌊q⌋ + 1
  else if ⌊q⌋ % 2 = 0 then ⌊q⌋ else ⌊q⌋ + 1

/-- Python `f"{q:.0f}"`.  One known edge divergence: a negative value that
rounds to zero prints as "-0" in Python but "0" here (ℚ has no signed
zero); no verified property depends on that sign. -/
def fmtF0 (q : ℚ) : String := toString (roundHalfEven q)

/-- Python `f"{q:.1f}"`: round `10·q` half-to-even, print with one digit
after the point (same signed-zero caveat as `fmtF0`: Python prints "-0.0"
where this prints "0.0"). -/
def fmtF1 (q : ℚ) : String :=
  let n := roundHalfEven (q * 10)
  (if n < 0 then "-" else "") ++ toString (n.natAbs / 10) ++ "." ++ toString (n.natAbs % 10)

/-! ## Display composer -/

/-- The color strings of the source's `COLORS` dict. -/
def colorBlack : String := "rgb(0,0,0)"

/-- `COLORS['white']`. -/
def colorWhite : String := "rgb(255,255,255)"

/-- One PIL call made by `generate_display_image`, in the abstract:
an icon paste, a filled rectangle, or a text draw (position, string, font
point size, fill color). -/
inductive DrawOp where
  | pasteIcon (x y : ℕ) (icon : String)
  | rect (x0 y0 x1 y1 : ℕ) (fill : String)
  | text (x y : ℕ) (s : String) (fontSize : ℕ) (fill : String)
deriving DecidableEq, Repr

/-- The configuration and ambient state `generate_display_image` reads
besides its `weather_data` argument: whether `pic/template.png` opens,
which icon assets exist on disk (`os.path.exists`), today's weekday and the
`TRASH_DAYS` config, and the wall clock already formatted `%H:%M`. -/
structure GenEnv where
  templateExists : Bool
  iconExists : String → Bool
  weekday : ℕ
  trashDays : List ℕ
  timeStr : String

/-- The alert banner string: `f"({alert_count}) {alerts}"` when more than
one alert, the raw `alert_names` otherwise. -/
def alertString (w : WeatherRecord) : String :=
  if w.alert_count > 1 then "(" ++ toString w.alert_count ++ ") " ++ w.alert_names
  else w.alert_names

/-- The temperature-suffix literal exactly as it appears in the source
(weather.py lines 181-184): the bytes EC A7 B8 — U+C9F8 "째", a mojibake of
the degree sign — followed by "F".  The program never draws "°F" (U+00B0). -/
def tempSuffix : String := "째F"

/-- The ordered drawing calls of `generate_display_image` (weather.py lines
173-206): optional icon paste, the fixed text fields, the UPDATED clock,
then the trash banner when today's weekday is in `TRASH_DAYS`, then the
alert banner when `alert_count > 0` — both into the same rectangle. -/
def displayOps (w : WeatherRecord) (env : GenEnv) : List DrawOp :=
  (if env.iconExists w.icon_code then [DrawOp.pasteIcon 40 15 w.icon_code] else [])
  ++ [DrawOp.text 30 200 ("Now: " ++ w.report) 22 colorBlack,
      DrawOp.text 30 240 ("Precip: " ++ fmtF0 w.precip_percent ++ "%") 30 colorBlack,
      DrawOp.text 375 35 (fmtF0 w.temp_current ++ "째F") 160 colorBlack,
      DrawOp.text 350 210 ("Feels like: " ++ fmtF0 w.feels_like ++ "째F") 50 colorBlack,
      DrawOp.text 35 325 ("High: " ++ fmtF0 w.temp_max ++ "째F") 50 colorBlack,
      DrawOp.text 35 390 ("Low: " ++ fmtF0 w.temp_min ++ "째F") 50 colorBlack,
      DrawOp.text 345 340 ("Humidity: " ++ toString w.humidity ++ "%") 30 colorBlack,
      DrawOp.text 345 400 ("Wind: " ++ fmtF1 w.wind ++ " MPH") 30 colorBlack,
      DrawOp.text 627 330 "UPDATED" 35 colorWhite,
      DrawOp.text 627 375 env.timeStr 60 colorWhite]
  ++ (if env.weekday ∈ env.trashDays then
        [DrawOp.rect 345 13 705 55 colorBlack,
         DrawOp.text 355 15 "TAKE OUT TRASH TODAY!" 30 colorWhite]
      else [])
  ++ (if w.alert_count > 0 then
        [DrawOp.rect 345 13 705 55 colorBlack,
         DrawOp.text 355 15 (alertString w) 30 colorWhite]
      else [])

/-- `generate_display_image(weather_data)`.  The `units` argument mirrors
the module's `UNITS` configuration, which is in scope for the function but
never read by its body.  A missing template asset makes `Image.open` raise,
caught and re-raised by the source's handler, hence the `Except`; every
other input yields the draw-call list over the template. -/
def generate_display_image (w : WeatherRecord) (env : GenEnv) (units : String) :
    Except String (List DrawOp) :=
  if env.templateExists then .ok (displayOps w env) else .error "template missing"

/-- The text drawn at the banner anchor (355, 15) by a draw op, if any. -/
def bannerTextOf : DrawOp → Option String
  | DrawOp.text x y s _ _ => if x = 355 then (if y = 15 then some s else none) else none
  | _ => none

/-- All texts drawn at the banner anchor, in drawing order. -/
def bannerTexts (ops : List DrawOp) : List String := ops.filterMap bannerTextOf

/-- The banner text visible after all draws: the last write into the banner
region wins, because each banner draw first fills the same rectangle. -/
def lastBannerText (ops : List DrawOp) : Option String := (bannerTexts ops).getLast?

/-! ## History sink (`save_to_csv`) and main pipeline -/

/-- The `now.strftime` pieces `save_to_csv` reads from the wall clock. -/
structure DateParts where
  year : String
  month : String
  date : String
  time : String

/-- The CSV header row (weather.py lines 141-145). -/
def csvHeader : List String :=
  ["YEAR", "MONTH", "DATE", "TIME", "LOCATION",
   "TEMP_CURRENT", "HEAT_INDEX", "TEMP_MAX", "TEMP_MIN",
   "HUMIDITY", "DAILY_PRECIP_PROB", "WIND_SPEED(MPH)"]

/-- The data row written for one run (weather.py lines 147-156). -/
def csvRow (now : DateParts) (location : String) (w : WeatherRecord) : List String :=
  [now.year, now.month, now.date, now.time, location,
   toString w.temp_current, toString w.feels_like, toString w.temp_max,
   toString w.temp_min, toString w.humidity, toString w.precip_percent,
   toString w.wind]

/-- `save_to_csv(weather_data)` as a transformer of the CSV file's state
(`none` = the file does not exist).  When recording is disabled it returns
at once; when the file does not yet exist the header row is written before
the data row; an `IOError` during the write (`ioFail`) is caught and logged
inside the function, leaving the file unchanged and raising nothing —
the function never propagates a failure. -/
def save_to_csv (enabled : Bool) (file : Option (List (List String)))
    (now : DateParts) (location : String) (w : WeatherRecord) (ioFail : Bool) :
    Option (List (List String)) :=
  if !enabled then file
  else if ioFail then file
  else
    match file with
    | none => some [csvHeader, csvRow now location w]
    | some rows => some (rows ++ [csvRow now location w])

/-- What a run leaves behind: the CSV file state and the composed image
(`none` when the run aborted before composing). -/
structure RunResult where
  csv : Option (List (List String))
  image : Option (List DrawOp)

/-- `main()` (weather.py lines 245-256): fetch, extract, save history,
compose.  Any exception from fetch, extraction or composition reaches the
top-level handler, which logs and ends the run with no image; `save_to_csv`
sits between extraction and composition and cannot raise. -/
def mainRun (fetched : Except String RawResponse) (enabled : Bool)
    (file : Option (List (List String))) (now : DateParts) (location : String)
    (csvFail : Bool) (env : GenEnv) (units : String) : RunResult :=
  match fetched with
  | .error _ => ⟨file, none⟩
  | .ok data =>
    match process_weather_data data with
    | .error _ => ⟨file, none⟩
    | .ok w =>
      let file2 := save_to_csv enabled file now location w csvFail
      match generate_display_image w env units with
      | .error _ => ⟨file2, none⟩
      | .ok ops => ⟨file2, some ops⟩

/-- N successive runs of the history sink (recording enabled, every write
succeeding), starting from file state `file`: one `(timestamp, record)`
entry per run, folded in order. -/
def csvRuns (entries : List (DateParts × WeatherRecord)) (location : String)
    (file : Option (List (List String))) : Option (List (List String)) :=
  entries.foldl (fun f e => save_to_csv true f e.1 location e.2 false) file

end Weather

namespace Weather

/-- The field named `k` is absent from the raw response, at the place where
the extraction dereferences it (`"temp"` is dereferenced both as
`current['temp']` and `daily[0]['temp']`). -/
def fieldAbsent (d : RawResponse) (k : String) : Bool :=
  if k = "current" then d.current.isNone
  else if k = "daily" then d.daily.isNone
  else if k = "event" then (d.alerts.getD []).any (fun a => a.event.isNone)
  else if k = "temp" then
    (match d.current with | some c => c.temp.isNone | none => false)
    || (match d.daily with | some (dl :: _) => dl.temp.isNone | _ => false)
  else if k = "feels_like" then
    (match d.current with | some c => c.feels_like.isNone | none => false)
  else if k = "humidity" then
    (match d.current with | some c => c.humidity.isNone | none => false)
  else if k = "wind_speed" then
    (match d.current with | some c => c.wind_speed.isNone | none => false)
  else if k = "weather" then
    (match d.current with | some c => c.weather.isNone | none => false)
  else if k = "description" then
    (match d.current with
     | some c => match c.weather with | some (w :: _) => w.description.isNone | _ => false
     | none => false)
  else if k = "icon" then
    (match d.current with
     | some c => match c.weather with | some (w :: _) => w.icon.isNone | _ => false
     | none => false)
  else if k = "max" then
    (match d.daily with
     | some (dl :: _) => match dl.temp with | some t => t.max.isNone | none => false
     | _ => false)
  else if k = "min" then
    (match d.daily with
     | some (dl :: _) => match dl.temp with | some t => t.min.isNone | none => false
     | _ => false)
  else if k = "pop" then
    (match d.daily with | some (dl :: _) => dl.pop.isNone | _ => false)
  else false

/-- Today's precipitation probability as found in the raw response
(defaulting where absent; under a successful extraction every default is
irrelevant). -/
def todayPop (d : RawResponse) : ℚ :=
  (((d.daily.getD []).headD ⟨none, none⟩).pop).getD 0

/-! ## Helper lemmas about the extractor -/

/-- On a successful `getEvents`, the events are exactly the `event` fields
in order, and every alert entry carried one. -/
theorem getEvents_ok_map (as : List RawAlert) (es : List String)
    (h : getEvents as = .ok es) :
    es = as.map (fun a => a.event.getD "") ∧
      as.all (fun a => a.event.isSome) = true := by
  induction as generalizing es with
  | nil =>
    simp [getEvents] at h
    simp [h.symm]
  | cons a rest ih =>
    cases ha : a.event with
    | none => simp [getEvents, getKey, ha, Bind.bind, Except.bind, Except.instMonad] at h
    | some e =>
      cases hr : getEvents rest with
      | error er =>
        simp [getEvents, getKey, ha, hr, Bind.bind, Except.bind, Except.instMonad] at h
      | ok es0 =>
        simp [getEvents, getKey, ha, hr, Bind.bind, Except.bind, Except.instMonad] at h
        obtain ⟨h1, h2⟩ := ih es0 hr
        simp [h.symm, h1, h2, ha, List.all_cons]

/-- When every alert entry carries an `event`, `getEvents` succeeds with the
events in order. -/
theorem getEvents_ok_of_all (as : List RawAlert)
    (h : as.all (fun a => a.event.isSome) = true) :
    getEvents as = .ok (as.map (fun a => a.event.getD "")) := by
  induction as with
  | nil => simp [getEvents]
  | cons a rest ih =>
    simp only [List.all_cons, Bool.and_eq_true] at h
    obtain ⟨h1, h2⟩ := h
    obtain ⟨e, he⟩ := Option.isSome_iff_exists.mp h1
    simp [getEvents, getKey, he, ih h2, Bind.bind, Except.bind, Except.instMonad]

/-- `getEvents` can only fail with `KeyError("event")`, and only when some
alert entry lacks its `event` key. -/
theorem getEvents_error_event (as : List RawAlert) (e : PyError)
    (h : getEvents as = .error e) :
    e = .keyError "event" ∧ (as.any (fun a => a.event.isNone)) = true := by
  induction as generalizing e with
  | nil => simp [getEvents] at h
  | cons a rest ih =>
    cases ha : a.event with
    | none =>
      simp [getEvents, getKey, ha, Bind.bind, Except.bind, Except.instMonad] at h
      simp [h.symm, ha, List.any_cons]
    | some ev =>
      cases hr : getEvents rest with
      | error er =>
        simp [getEvents, getKey, ha, hr, Bind.bind, Except.bind, Except.instMonad] at h
        obtain ⟨h1, h2⟩ := ih er hr
        simp [h.symm, h1, h2, List.any_cons]
      | ok es0 =>
        simp [getEvents, getKey, ha, hr, Bind.bind, Except.bind, Except.instMonad] at h

end Weather

namespace Weather

/-- Shape of every successful extraction: each required field was present
and each `WeatherRecord` field is the mapped source value. -/
theorem process_ok_fields (d : RawResponse) (rec : WeatherRecord)
    (h : process_weather_data d = Except.ok rec) :
    ∃ c dl dls, d.current = some c ∧ d.daily = some (dl :: dls) ∧
      (∃ w ws, c.weather = some (w :: ws) ∧
        (∃ de, w.description = some de ∧ rec.report = title de) ∧
        w.icon = some rec.icon_code) ∧
      c.temp = some rec.temp_current ∧
      c.feels_like = some rec.feels_like ∧
      c.humidity = some rec.humidity ∧
      c.wind_speed = some rec.wind ∧
      (∃ dtl, dl.temp = some dtl ∧ dtl.max = some rec.temp_max ∧
        dtl.min = some rec.temp_min) ∧
      (∃ po, dl.pop = some po ∧ rec.precip_percent = po * 100) ∧
      rec.alert_count = (d.alerts.getD []).length ∧
      (∃ es, getEvents (d.alerts.getD []) = .ok es ∧
        rec.alert_names = String.intercalate ", " es) := by
  obtain ⟨cur, dly, alr⟩ := d
  rcases cur with _ | ⟨ct, cf, chu, cwi, cwe⟩
  · simp [process_weather_data, getKey, Bind.bind, Except.bind, Except.instMonad] at h
  rcases dly with _ | dls0
  · simp [process_weather_data, getKey, Bind.bind, Except.bind, Except.instMonad] at h
  rcases dls0 with _ | ⟨⟨dlt, dlp⟩, dls⟩
  · simp [process_weather_data, getKey, getIndex0, Bind.bind, Except.bind,
      Except.instMonad] at h
  rcases hev : getEvents (alr.getD []) with e | es
  · simp [process_weather_data, getKey, getIndex0, joinEvents, hev, Bind.bind,
      Except.bind, Except.instMonad] at h
  rcases ct with _ | t
  · simp [process_weather_data, getKey, getIndex0, joinEvents, hev, Bind.bind,
      Except.bind, Except.instMonad] at h
  rcases cf with _ | fl
  · simp [process_weather_data, getKey, getIndex0, joinEvents, hev, Bind.bind,
      Except.bind, Except.instMonad] at h
  rcases chu with _ | hu
  · simp [process_weather_data, getKey, getIndex0, joinEvents, hev, Bind.bind,
      Except.bind, Except.instMonad] at h
  rcases cwi with _ | wi
  · simp [process_weather_data, getKey, getIndex0, joinEvents, hev, Bind.bind,
      Except.bind, Except.instMonad] at h
  rcases cwe with _ | ws0
  · simp [process_weather_data, getKey, getIndex0, joinEvents, hev, Bind.bind,
      Except.bind, Except.instMonad] at h
  rcases ws0 with _ | ⟨⟨wde, wic⟩, ws⟩
  · simp [process_weather_data, getKey, getIndex0, joinEvents, hev, Bind.bind,
      Except.bind, Except.instMonad] at h
  rcases wde with _ | de
  · simp [process_weather_data, getKey, getIndex0, joinEvents, hev, Bind.bind,
      Except.bind, Except.instMonad] at h
  rcases wic with _ | ic
  · simp [process_weather_data, getKey, getIndex0, joinEvents, hev, Bind.bind,
      Except.bind, Except.instMonad] at h
  rcases dlt with _ | ⟨ma0, mi0⟩
  · simp [process_weather_data, getKey, getIndex0, joinEvents, hev, Bind.bind,
      Except.bind, Except.instMonad] at h
  rcases ma0 with _ | ma
  · simp [process_weather_data, getKey, getIndex0, joinEvents, hev, Bind.bind,
      Except.bind, Except.instMonad] at h
  rcases mi0 with _ | mi
  · simp [process_weather_data, getKey, getIndex0, joinEvents, hev, Bind.bind,
      Except.bind, Except.instMonad] at h
  rcases dlp with _ | po
  · simp [process_weather_data, getKey, getIndex0, joinEvents, hev, Bind.bind,
      Except.bind, Except.instMonad] at h
  simp [process_weather_data, getKey, getIndex0, joinEvents, hev, Bind.bind,
    Except.bind, Except.instMonad] at h
  subst h
  exact ⟨_, _, _, rfl, rfl, ⟨_, _, rfl, ⟨de, rfl, rfl⟩, rfl⟩, rfl, rfl, rfl, rfl,
    ⟨_, rfl, rfl, rfl⟩, ⟨po, rfl, rfl⟩, rfl, ⟨es, rfl, rfl⟩⟩

/-- Extraction succeeds on any response whose required fields are all
present (and whose alert entries all carry an `event`), with the field
mapping of the source. -/
theorem process_ok_literal
    (t fl : ℚ) (hu : ℤ) (wi : ℚ) (de ic : String) (ws : List RawWeatherEntry)
    (ma mi po : ℚ) (dls : List RawDaily) (alr : Option (List RawAlert))
    (es : List String) (hev : getEvents (alr.getD []) = .ok es) :
    process_weather_data
      ⟨some ⟨some t, some fl, some hu, some wi, some (⟨some de, some ic⟩ :: ws)⟩,
       some (⟨some ⟨some ma, some mi⟩, some po⟩ :: dls), alr⟩ =
      .ok ⟨t, fl, hu, wi, title de, ic, ma, mi, po * 100,
           (alr.getD []).length, String.intercalate ", " es⟩ := by
  simp [process_weather_data, getKey, getIndex0, joinEvents, hev, Bind.bind,
    Except.bind, Except.instMonad]

end Weather

namespace Weather

/-- Every `KeyError` raised by the extraction names a field that really is
absent from the raw response, at the place the source dereferences it. -/
theorem process_keyError_names (d : RawResponse) (k : String)
    (h : process_weather_data d = .error (.keyError k)) :
    fieldAbsent d k = true := by
  obtain ⟨cur, dly, alr⟩ := d
  rcases cur with _ | ⟨ct, cf, chu, cwi, cwe⟩
  · simp [process_weather_data, getKey, Bind.bind, Except.bind, Except.instMonad] at h
    subst h
    simp [fieldAbsent]
  rcases dly with _ | dls0
  · simp [process_weather_data, getKey, Bind.bind, Except.bind, Except.instMonad] at h
    subst h
    simp [fieldAbsent]
  rcases dls0 with _ | ⟨⟨dlt, dlp⟩, dls⟩
  · simp [process_weather_data, getKey, getIndex0, Bind.bind, Except.bind,
      Except.instMonad] at h
  rcases hev : getEvents (alr.getD []) with e | es
  · simp [process_weather_data, getKey, getIndex0, joinEvents, hev, Bind.bind,
      Except.bind, Except.instMonad] at h
    obtain ⟨he1, he2⟩ := getEvents_error_event _ e hev
    rw [he1] at h
    simp only [PyError.keyError.injEq] at h
    subst h
    simp [fieldAbsent, he2]
  rcases ct with _ | t
  · simp [process_weather_data, getKey, getIndex0, joinEvents, hev, Bind.bind,
      Except.bind, Except.instMonad] at h
    subst h
    simp [fieldAbsent]
  rcases cf with _ | fl
  · simp [process_weather_data, getKey, getIndex0, joinEvents, hev, Bind.bind,
      Except.bind, Except.instMonad] at h
    subst h
    simp [fieldAbsent]
  rcases chu with _ | hu
  · simp [process_weather_data, getKey, getIndex0, joinEvents, hev, Bind.bind,
      Except.bind, Except.instMonad] at h
    subst h
    simp [fieldAbsent]
  rcases cwi with _ | wi
  · simp [process_weather_data, getKey, getIndex0, joinEvents, hev, Bind.bind,
      Except.bind, Except.instMonad] at h
    subst h
    simp [fieldAbsent]
  rcases cwe with _ | ws0
  · simp [process_weather_data, getKey, getIndex0, joinEvents, hev, Bind.bind,
      Except.bind, Except.instMonad] at h
    subst h
    simp [fieldAbsent]
  rcases ws0 with _ | ⟨⟨wde, wic⟩, ws⟩
  · simp [process_weather_data, getKey, getIndex0, joinEvents, hev, Bind.bind,
      Except.bind, Except.instMonad] at h
  rcases wde with _ | de
  · simp [process_weather_data, getKey, getIndex0, joinEvents, hev, Bind.bind,
      Except.bind, Except.instMonad] at h
    subst h
    simp [fieldAbsent]
  rcases wic with _ | ic
  · simp [process_weather_data, getKey, getIndex0, joinEvents, hev, Bind.bind,
      Except.bind, Except.instMonad] at h
    subst h
    simp [fieldAbsent]
  rcases dlt with _ | ⟨ma0, mi0⟩
  · simp [process_weather_data, getKey, getIndex0, joinEvents, hev, Bind.bind,
      Except.bind, Except.instMonad] at h
    subst h
    simp [fieldAbsent]
  rcases ma0 with _ | ma
  · simp [process_weather_data, getKey, getIndex0, joinEvents, hev, Bind.bind,
      Except.bind, Except.instMonad] at h
    subst h
    simp [fieldAbsent]
  rcases mi0 with _ | mi
  · simp [process_weather_data, getKey, getIndex0, joinEvents, hev, Bind.bind,
      Except.bind, Except.instMonad] at h
    subst h
    simp [fieldAbsent]
  rcases dlp with _ | po
  · simp [process_weather_data, getKey, getIndex0, joinEvents, hev, Bind.bind,
      Except.bind, Except.instMonad] at h
    subst h
    simp [fieldAbsent]
  simp [process_weather_data, getKey, getIndex0, joinEvents, hev, Bind.bind,
    Except.bind, Except.instMonad] at h

end Weather

namespace Weather

/-! ## Helper lemmas about the composer -/

/-- A successful composition happens exactly over an existing template and
yields the draw-call list. -/
theorem generate_ok_elim (w : WeatherRecord) (env : GenEnv) (u : String)
    (ops : List DrawOp) (h : generate_display_image w env u = .ok ops) :
    ops = displayOps w env ∧ env.templateExists = true := by
  unfold generate_display_image at h
  cases hte : env.templateExists with
  | false => rw [hte] at h; simp at h
  | true => rw [hte] at h; simp at h; exact ⟨h.symm, rfl⟩

/-- The texts written into the banner anchor, in drawing order: the trash
reminder (when today is a trash day) and then the alert banner (when there
is at least one alert). -/
theorem bannerTexts_displayOps (w : WeatherRecord) (env : GenEnv) :
    bannerTexts (displayOps w env) =
      (if env.weekday ∈ env.trashDays then ["TAKE OUT TRASH TODAY!"] else [])
      ++ (if w.alert_count > 0 then [alertString w] else []) := by
  unfold bannerTexts displayOps
  split_ifs with h1 h2 h3 <;> simp [bannerTextOf]

/-- Rounding half-to-even lands within half a unit of the value: it rounds
to a nearest integer. -/
theorem roundHalfEven_nearest (q : ℚ) : |q - (roundHalfEven q : ℚ)| ≤ 1/2 := by
  have h0 : (⌊q⌋ : ℚ) ≤ q := Int.floor_le q
  have h1 : q < ⌊q⌋ + 1 := Int.lt_floor_add_one q
  unfold roundHalfEven
  split_ifs with h2 h3 h4 <;> rw [abs_le] <;> push_cast <;> constructor <;> linarith

/-- `fmtF1` always prints exactly one digit after the decimal point. -/
theorem fmtF1_one_decimal (q : ℚ) :
    ∃ s d, fmtF1 q = s ++ "." ++ toString d ∧ d < 10 :=
  ⟨(if roundHalfEven (q * 10) < 0 then "-" else "")
      ++ toString ((roundHalfEven (q * 10)).natAbs / 10),
   (roundHalfEven (q * 10)).natAbs % 10, rfl, Nat.mod_lt _ (by norm_num)⟩

end Weather

namespace Weather

/-! ## Claim C2: exact precipitation scaling -/

/-- **C2.** For every raw response the extractor computes
`precip_percent` as exactly today's precipitation probability multiplied by
100. -/
theorem precip_scaling_exact (d : RawResponse) (rec : WeatherRecord)
    (h : process_weather_data d = .ok rec) :
    rec.precip_percent = todayPop d * 100 := by
  obtain ⟨c, dl, dls, hc, hd, _, _, _, _, _, _, ⟨po, hpo, hpp⟩, _, _⟩ :=
    process_ok_fields d rec h
  simp [todayPop, hd, hpo, hpp]

/-- A concrete valid raw response with `pop = 0.35`. -/
def rawC2 : RawResponse :=
  ⟨some ⟨some 70, some 68, some 45, some 5, some [⟨some "clear sky", some "01d"⟩]⟩,
   some [⟨some ⟨some 80, some 60⟩, some (35/100)⟩], none⟩

/-- The record extracted from `rawC2`. -/
def recC2 : WeatherRecord :=
  ⟨70, 68, 45, 5, title "clear sky", "01d", 80, 60, (35/100 : ℚ) * 100, 0,
   String.intercalate ", " []⟩

/-- Witness for C2: on input `pop = 0.35` the extracted value is exactly
`35`. -/
theorem precip_scaling_exact_witness :
    process_weather_data rawC2 = .ok recC2 ∧ recC2.precip_percent = 35 := by
  constructor
  · rfl
  · have h := precip_scaling_exact rawC2 recC2 rfl
    rw [h]
    norm_num [todayPop, rawC2]

/-! ## Claim C3: alert summary and banner formatting -/

/-- **C3.** Zero alerts (or an absent alerts sequence) extract to
`alert_count = 0` and an empty `alert_names`; in general `alert_names` is
the event names joined with `", "` in order and `alert_count` their number;
the banner drawn by the composer shows the raw summary for exactly one
alert and `"(N) "` followed by the summary for `N > 1` alerts. -/
theorem alert_summary_formatting :
    (∀ d rec, process_weather_data d = .ok rec →
      rec.alert_count = (d.alerts.getD []).length ∧
      rec.alert_names =
        String.intercalate ", " ((d.alerts.getD []).map (fun a => a.event.getD "")) ∧
      (d.alerts.getD [] = [] → rec.alert_count = 0 ∧ rec.alert_names = "")) ∧
    (∀ rec env u ops, generate_display_image rec env u = .ok ops →
      (rec.alert_count = 1 → lastBannerText ops = some rec.alert_names) ∧
      (1 < rec.alert_count →
        lastBannerText ops =
          some ("(" ++ toString rec.alert_count ++ ") " ++ rec.alert_names))) := by
  constructor
  · intro d rec h
    obtain ⟨c, dl, dls, hc, hd, _, _, _, _, _, _, _, hcount, ⟨es, hev, hnames⟩⟩ :=
      process_ok_fields d rec h
    obtain ⟨hmap, _⟩ := getEvents_ok_map _ _ hev
    subst hmap
    refine ⟨hcount, hnames, ?_⟩
    intro hempty
    rw [hcount, hempty, hnames, hempty]
    simp [String.intercalate]
  · intro rec env u ops h
    obtain ⟨hops, _⟩ := generate_ok_elim rec env u ops h
    subst hops
    constructor
    · intro h1
      rw [lastBannerText, bannerTexts_displayOps,
        if_pos (by omega : rec.alert_count > 0)]
      rw [List.getLast?_concat]
      simp [alertString, h1]
    · intro h1
      rw [lastBannerText, bannerTexts_displayOps,
        if_pos (by omega : rec.alert_count > 0)]
      rw [List.getLast?_concat]
      simp [alertString, h1]

/-- A concrete record with two alerts, as in the spec's example. -/
def recC3 : WeatherRecord :=
  ⟨70, 68, 45, 5, "Clear Sky", "01d", 80, 60, 35, 2,
   "Heat Advisory, Flood Watch"⟩

/-- A concrete composer environment: template present, no icon assets, a
Wednesday with trash on Tuesday and Friday. -/
def envC3 : GenEnv := ⟨true, fun _ => false, 2, [1, 4], "12:00"⟩

/-- Witness for C3: with the two alerts "Heat Advisory" and "Flood Watch"
the banner renders `"(2) Heat Advisory, Flood Watch"`. -/
theorem alert_summary_formatting_witness :
    lastBannerText (displayOps recC3 envC3) =
      some "(2) Heat Advisory, Flood Watch" := by
  have h := (alert_summary_formatting.2 recC3 envC3 "imperial"
    (displayOps recC3 envC3) rfl).2 (by norm_num [recC3])
  rw [h]
  rfl

end Weather

namespace Weather

/-! ## Claim C4: alerts overwrite the trash reminder -/

/-- **C4.** When today's weekday is in the trash-day set and there is at
least one alert, the banner anchor receives exactly two writes, the trash
reminder first and the alert text second, so the last write — the alert
text — is what the banner shows. -/
theorem alert_banner_overrides_trash (rec : WeatherRecord) (env : GenEnv)
    (u : String) (ops : List DrawOp)
    (h : generate_display_image rec env u = .ok ops)
    (hwd : env.weekday ∈ env.trashDays) (hal : 0 < rec.alert_count) :
    bannerTexts ops = ["TAKE OUT TRASH TODAY!", alertString rec] ∧
    lastBannerText ops = some (alertString rec) := by
  obtain ⟨hops, _⟩ := generate_ok_elim rec env u ops h
  subst hops
  have hb : bannerTexts (displayOps rec env) =
      ["TAKE OUT TRASH TODAY!", alertString rec] := by
    rw [bannerTexts_displayOps, if_pos hwd, if_pos hal]
    rfl
  exact ⟨hb, by rw [lastBannerText, hb]; rfl⟩

/-- A record with one alert, for the C4 witness. -/
def recC4 : WeatherRecord :=
  ⟨70, 68, 45, 5, "Clear Sky", "01d", 80, 60, 35, 1, "Heat Advisory"⟩

/-- An environment whose weekday 4 is in the trash-day set. -/
def envC4 : GenEnv := ⟨true, fun _ => false, 4, [1, 4], "12:00"⟩

/-- Witness for C4: on a trash day with one alert the banner shows the
alert, not the trash reminder. -/
theorem alert_banner_overrides_trash_witness :
    bannerTexts (displayOps recC4 envC4) =
      ["TAKE OUT TRASH TODAY!", "Heat Advisory"] ∧
    lastBannerText (displayOps recC4 envC4) = some "Heat Advisory" := by
  have h := alert_banner_overrides_trash recC4 envC4 "imperial"
    (displayOps recC4 envC4) rfl (by decide) (by decide)
  have ha : alertString recC4 = "Heat Advisory" := by decide
  rw [ha] at h
  exact h

/-! ## Claim C5: text field formats -/

/-- **C5.** The composer draws the precipitation percentage rounded to the
nearest whole percent, the current / feels-like / high / low temperatures
rounded to whole degrees, the humidity as an integer percent, and the wind
speed with exactly one decimal place; `roundHalfEven` (the embedded `.0f`
rounding) really is rounding to a nearest integer, and `fmtF1` really
carries exactly one decimal digit. -/
theorem text_field_formats (rec : WeatherRecord) (env : GenEnv) (u : String)
    (ops : List DrawOp) (h : generate_display_image rec env u = .ok ops) :
    DrawOp.text 30 240 ("Precip: " ++ fmtF0 rec.precip_percent ++ "%") 30 colorBlack ∈ ops ∧
    DrawOp.text 375 35 (fmtF0 rec.temp_current ++ "째F") 160 colorBlack ∈ ops ∧
    DrawOp.text 350 210 ("Feels like: " ++ fmtF0 rec.feels_like ++ "째F") 50 colorBlack ∈ ops ∧
    DrawOp.text 35 325 ("High: " ++ fmtF0 rec.temp_max ++ "째F") 50 colorBlack ∈ ops ∧
    DrawOp.text 35 390 ("Low: " ++ fmtF0 rec.temp_min ++ "째F") 50 colorBlack ∈ ops ∧
    DrawOp.text 345 340 ("Humidity: " ++ toString rec.humidity ++ "%") 30 colorBlack ∈ ops ∧
    DrawOp.text 345 400 ("Wind: " ++ fmtF1 rec.wind ++ " MPH") 30 colorBlack ∈ ops ∧
    (∀ q : ℚ, fmtF0 q = toString (roundHalfEven q)) ∧
    (∀ q : ℚ, |q - (roundHalfEven q : ℚ)| ≤ 1/2) ∧
    (∀ q : ℚ, ∃ s d, fmtF1 q = s ++ "." ++ toString d ∧ d < 10) := by
  obtain ⟨hops, _⟩ := generate_ok_elim rec env u ops h
  subst hops
  refine ⟨?_, ?_, ?_, ?_, ?_, ?_, ?_, fun q => rfl, roundHalfEven_nearest,
    fmtF1_one_decimal⟩ <;> simp [displayOps]

/-- Witness for C5 at a concrete record and environment. -/
theorem text_field_formats_witness :
    DrawOp.text 345 400 ("Wind: " ++ fmtF1 recC4.wind ++ " MPH") 30 colorBlack
      ∈ displayOps recC4 envC4 :=
  (text_field_formats recC4 envC4 "imperial" (displayOps recC4 envC4) rfl).2.2.2.2.2.2.1

/-! ## Claim C6: missing icon asset degrades gracefully -/

/-- **C6.** When no icon asset exists for the record's
`condition_icon_code`, composition still succeeds and simply pastes
nothing (no placeholder, no error); when the asset exists it is pasted at
the fixed anchor (40, 15). -/
theorem icon_asset_handling (rec : WeatherRecord) (env : GenEnv) (u : String)
    (hte : env.templateExists = true) :
    (env.iconExists rec.icon_code = false →
      ∃ ops, generate_display_image rec env u = .ok ops ∧
        ∀ x y code, DrawOp.pasteIcon x y code ∉ ops) ∧
    (env.iconExists rec.icon_code = true →
      ∃ ops, generate_display_image rec env u = .ok ops ∧
        DrawOp.pasteIcon 40 15 rec.icon_code ∈ ops) := by
  constructor
  · intro hic
    refine ⟨displayOps rec env, by simp [generate_display_image, hte], ?_⟩
    intro x y code
    simp only [displayOps, hic]
    split_ifs <;> simp_all
  · intro hic
    refine ⟨displayOps rec env, by simp [generate_display_image, hte], ?_⟩
    simp [displayOps, hic]

/-- Witness for C6: with no icon assets on disk, composition of `recC4`
succeeds with no paste drawn. -/
theorem icon_asset_handling_witness :
    ∃ ops, generate_display_image recC4 envC4 "imperial" = .ok ops ∧
      ∀ x y code, DrawOp.pasteIcon x y code ∉ ops :=
  (icon_asset_handling recC4 envC4 "imperial" rfl).1 rfl

end Weather

namespace Weather

/-! ## Claim C9: composition is deterministic given record and clock -/

/-- **C9.** Composition depends only on the record, the assets, the weekday
and the wall-clock minute: two compositions during the same minute are
identical, and two compositions during different minutes differ at most in
the single "UPDATED" timestamp draw — the rest of the draw list (`pre` and
`post`) is shared. -/
theorem compose_time_locality (rec : WeatherRecord) (te : Bool)
    (ie : String → Bool) (wd : ℕ) (td : List ℕ) (t1 t2 u : String)
    (hte : te = true) :
    (t1 = t2 → generate_display_image rec ⟨te, ie, wd, td, t1⟩ u =
      generate_display_image rec ⟨te, ie, wd, td, t2⟩ u) ∧
    ∃ pre post,
      generate_display_image rec ⟨te, ie, wd, td, t1⟩ u =
        .ok (pre ++ [DrawOp.text 627 375 t1 60 colorWhite] ++ post) ∧
      generate_display_image rec ⟨te, ie, wd, td, t2⟩ u =
        .ok (pre ++ [DrawOp.text 627 375 t2 60 colorWhite] ++ post) := by
  subst hte
  refine ⟨fun h => by rw [h], ?_⟩
  refine ⟨(if ie rec.icon_code then [DrawOp.pasteIcon 40 15 rec.icon_code] else [])
      ++ [DrawOp.text 30 200 ("Now: " ++ rec.report) 22 colorBlack,
          DrawOp.text 30 240 ("Precip: " ++ fmtF0 rec.precip_percent ++ "%") 30 colorBlack,
          DrawOp.text 375 35 (fmtF0 rec.temp_current ++ "째F") 160 colorBlack,
          DrawOp.text 350 210 ("Feels like: " ++ fmtF0 rec.feels_like ++ "째F") 50 colorBlack,
          DrawOp.text 35 325 ("High: " ++ fmtF0 rec.temp_max ++ "째F") 50 colorBlack,
          DrawOp.text 35 390 ("Low: " ++ fmtF0 rec.temp_min ++ "째F") 50 colorBlack,
          DrawOp.text 345 340 ("Humidity: " ++ toString rec.humidity ++ "%") 30 colorBlack,
          DrawOp.text 345 400 ("Wind: " ++ fmtF1 rec.wind ++ " MPH") 30 colorBlack,
          DrawOp.text 627 330 "UPDATED" 35 colorWhite],
    (if wd ∈ td then
        [DrawOp.rect 345 13 705 55 colorBlack,
         DrawOp.text 355 15 "TAKE OUT TRASH TODAY!" 30 colorWhite]
      else [])
    ++ (if rec.alert_count > 0 then
          [DrawOp.rect 345 13 705 55 colorBlack,
           DrawOp.text 355 15 (alertString rec) 30 colorWhite]
        else []), ?_, ?_⟩
  · simp [generate_display_image, displayOps, List.append_assoc]
  · simp [generate_display_image, displayOps, List.append_assoc]

/-- Witness for C9 at two concrete minutes. -/
theorem compose_time_locality_witness :
    ∃ pre post,
      generate_display_image recC4 ⟨true, fun _ => false, 4, [1, 4], "12:00"⟩ "imperial" =
        .ok (pre ++ [DrawOp.text 627 375 "12:00" 60 colorWhite] ++ post) ∧
      generate_display_image recC4 ⟨true, fun _ => false, 4, [1, 4], "12:01"⟩ "imperial" =
        .ok (pre ++ [DrawOp.text 627 375 "12:01" 60 colorWhite] ++ post) :=
  (compose_time_locality recC4 true (fun _ => false) 4 [1, 4] "12:00" "12:01"
    "imperial" rfl).2

/-! ## Claim C10: unit labels are fixed regardless of UNITS

The claim is right that the unit labels are hard-coded and independent of
the configured unit system, but it misnames the temperature suffix: the
source (weather.py lines 181-184) draws the literal `tempSuffix` = "째F"
(U+C9F8 mojibake followed by "F"), never "°F" (U+00B0). -/

/-- **C10 counterexample.** At the concrete record `recC4` and environment
`envC4`, the current-temperature draw of the composer is the text
`"70" ++ "째F"`, whose characters do not end in "°F" — so the claim that
the temperature values are rendered with the suffix "°F" is false of the
program (the hard-coded suffix is the mojibake `tempSuffix`, which differs
from "°F"). -/
theorem temp_suffix_claim_cex :
    DrawOp.text 375 35 ("70" ++ "째F") 160 colorBlack ∈ displayOps recC4 envC4 ∧
    ¬ List.IsSuffix ("°F".data) (("70" ++ "째F").data) ∧
    tempSuffix ≠ "°F" := by
  refine ⟨?_, by decide, by decide⟩
  have h0 : fmtF0 recC4.temp_current = "70" := by
    rw [show recC4.temp_current = (70 : ℚ) from rfl, fmtF0,
      show roundHalfEven (70 : ℚ) = 70 from by norm_num [roundHalfEven]]
    decide
  have hm : DrawOp.text 375 35 (fmtF0 recC4.temp_current ++ "째F") 160 colorBlack
      ∈ displayOps recC4 envC4 := by simp [displayOps]
  rwa [h0] at hm

/-- **C10 (amended).** The composer's output does not depend on the
configured unit system at all, and the temperature texts always end in the
source's hard-coded "째F" literal (the mojibake of a degree sign) while the
wind text always ends in " MPH" — including when metric is selected. -/
theorem units_fixed_labels (rec : WeatherRecord) (env : GenEnv) (u1 u2 : String) :
    generate_display_image rec env u1 = generate_display_image rec env u2 ∧
    (env.templateExists = true →
      ∃ ops, generate_display_image rec env u1 = .ok ops ∧
        (∃ s, DrawOp.text 375 35 (s ++ "째F") 160 colorBlack ∈ ops) ∧
        (∃ s, DrawOp.text 350 210 (s ++ "째F") 50 colorBlack ∈ ops) ∧
        (∃ s, DrawOp.text 35 325 (s ++ "째F") 50 colorBlack ∈ ops) ∧
        (∃ s, DrawOp.text 35 390 (s ++ "째F") 50 colorBlack ∈ ops) ∧
        (∃ s, DrawOp.text 345 400 (s ++ " MPH") 30 colorBlack ∈ ops)) := by
  refine ⟨rfl, fun hte =>
    ⟨displayOps rec env, by simp [generate_display_image, hte], ?_, ?_, ?_, ?_, ?_⟩⟩
  · exact ⟨fmtF0 rec.temp_current, by simp [displayOps]⟩
  · exact ⟨"Feels like: " ++ fmtF0 rec.feels_like, by simp [displayOps]⟩
  · exact ⟨"High: " ++ fmtF0 rec.temp_max, by simp [displayOps]⟩
  · exact ⟨"Low: " ++ fmtF0 rec.temp_min, by simp [displayOps]⟩
  · exact ⟨"Wind: " ++ fmtF1 rec.wind, by simp [displayOps]⟩

/-- Witness for C10: with metric configured the composer output is the same
as with imperial and still carries the " MPH" suffix. -/
theorem units_fixed_labels_witness :
    generate_display_image recC4 envC4 "metric" =
      generate_display_image recC4 envC4 "imperial" ∧
    ∃ ops, generate_display_image recC4 envC4 "metric" = .ok ops ∧
      ∃ s, DrawOp.text 345 400 (s ++ " MPH") 30 colorBlack ∈ ops := by
  obtain ⟨h1, h2⟩ := units_fixed_labels recC4 envC4 "metric" "imperial"
  obtain ⟨ops, ho, _, _, _, _, hw⟩ := h2 rfl
  exact ⟨h1, ops, ho, hw⟩

/-! ## Claim C7: a failing history write never aborts the pipeline -/

/-- The wall-clock pieces used by the witness runs. -/
def nowX : DateParts := ⟨"2026", "10", "12", "09:00"⟩

/-- **C7.** A failure inside `save_to_csv` is caught there: the file is
left unchanged, nothing propagates, and `main` still composes and outputs
the image — the image produced is the same whether or not the history
write failed. -/
theorem history_write_failure_nonfatal
    (d : RawResponse) (rec : WeatherRecord) (enabled : Bool)
    (file : Option (List (List String))) (now : DateParts) (loc : String)
    (env : GenEnv) (u : String)
    (hok : process_weather_data d = .ok rec) (hte : env.templateExists = true) :
    save_to_csv enabled file now loc rec true = file ∧
    (mainRun (.ok d) enabled file now loc true env u).image =
      some (displayOps rec env) ∧
    (mainRun (.ok d) enabled file now loc true env u).image =
      (mainRun (.ok d) enabled file now loc false env u).image := by
  refine ⟨?_, ?_, ?_⟩
  · unfold save_to_csv
    cases enabled <;> simp
  · simp [mainRun, hok, generate_display_image, hte]
  · simp [mainRun, hok, generate_display_image, hte]

/-- Witness for C7: a concrete run whose history write fails still
composes the image. -/
theorem history_write_failure_nonfatal_witness :
    save_to_csv true none nowX "Home" recC2 true = none ∧
    (mainRun (.ok rawC2) true none nowX "Home" true envC4 "imperial").image =
      some (displayOps recC2 envC4) := by
  obtain ⟨h1, h2, _⟩ := history_write_failure_nonfatal rawC2 recC2 true none
    nowX "Home" envC4 "imperial" rfl rfl
  exact ⟨h1, h2⟩

/-! ## Claim C8: header once, one row per run -/

/-- Folding successful enabled writes over an existing file appends exactly
one data row per run and never writes another header. -/
theorem csvRuns_some_append (entries : List (DateParts × WeatherRecord))
    (rows : List (List String)) (loc : String) :
    csvRuns entries loc (some rows) =
      some (rows ++ entries.map (fun e => csvRow e.1 loc e.2)) := by
  induction entries generalizing rows with
  | nil => simp [csvRuns]
  | cons e es ih =>
    have hstep : save_to_csv true (some rows) e.1 loc e.2 false =
        some (rows ++ [csvRow e.1 loc e.2]) := by simp [save_to_csv]
    calc csvRuns (e :: es) loc (some rows)
        = csvRuns es loc (save_to_csv true (some rows) e.1 loc e.2 false) := rfl
      _ = csvRuns es loc (some (rows ++ [csvRow e.1 loc e.2])) := by rw [hstep]
      _ = some ((rows ++ [csvRow e.1 loc e.2]) ++
            es.map (fun e => csvRow e.1 loc e.2)) := ih _
      _ = some (rows ++ (e :: es).map (fun e => csvRow e.1 loc e.2)) := by simp

/-- **C8.** Starting from an absent log file, N successful runs with
recording enabled leave the file with exactly one header row (written by
the first run) followed by exactly N data rows, one per run in order. -/
theorem history_header_and_rows (entries : List (DateParts × WeatherRecord))
    (loc : String) (hne : entries ≠ []) :
    csvRuns entries loc none =
      some (csvHeader :: entries.map (fun e => csvRow e.1 loc e.2)) ∧
    (entries.map (fun e => csvRow e.1 loc e.2)).length = entries.length := by
  refine ⟨?_, by simp⟩
  cases entries with
  | nil => exact absurd rfl hne
  | cons e es =>
    have hstep : save_to_csv true none e.1 loc e.2 false =
        some [csvHeader, csvRow e.1 loc e.2] := by simp [save_to_csv]
    calc csvRuns (e :: es) loc none
        = csvRuns es loc (save_to_csv true none e.1 loc e.2 false) := rfl
      _ = csvRuns es loc (some [csvHeader, csvRow e.1 loc e.2]) := by rw [hstep]
      _ = some ([csvHeader, csvRow e.1 loc e.2] ++
            es.map (fun e => csvRow e.1 loc e.2)) := csvRuns_some_append es _ loc
      _ = some (csvHeader :: (e :: es).map (fun e => csvRow e.1 loc e.2)) := by simp

/-- Witness for C8: one run against an absent file writes the header and
one data row. -/
theorem history_header_and_rows_witness :
    csvRuns [(nowX, recC4)] "Home" none =
      some [csvHeader, csvRow nowX "Home" recC4] := by
  have h := (history_header_and_rows [(nowX, recC4)] "Home" (by simp)).1
  simpa using h

end Weather

namespace Weather

/-! ## Claim C1: extraction failure on missing required fields -/

/-- Extraction succeeds exactly when every field it dereferences is
present. -/
theorem process_ok_iff_requiredOk (d : RawResponse) :
    (∃ rec, process_weather_data d = .ok rec) ↔ requiredOk d = true := by
  constructor
  · rintro ⟨rec, h⟩
    obtain ⟨c, dl, dls, hc, hd, ⟨w, ws, hw, ⟨de, hde, _⟩, hic⟩, hct, hcf, hhu, hwi,
      ⟨dtl, hdt, hma, hmi⟩, ⟨po, hpo, _⟩, _, ⟨es, hev, _⟩⟩ := process_ok_fields d rec h
    have hall := (getEvents_ok_map _ _ hev).2
    simp [requiredOk, hc, hd, hw, hdt, hct, hcf, hhu, hwi, hde, hic, hma, hmi,
      hpo, hall]
  · intro hreq
    obtain ⟨cur, dly, alr⟩ := d
    rcases cur with _ | ⟨ct, cf, chu, cwi, cwe⟩
    · simp [requiredOk] at hreq
    rcases dly with _ | dls0
    · simp [requiredOk] at hreq
    rcases dls0 with _ | ⟨⟨dlt, dlp⟩, dls⟩
    · simp [requiredOk] at hreq
    rcases cwe with _ | ws0
    · simp [requiredOk] at hreq
    rcases ws0 with _ | ⟨⟨wde, wic⟩, ws⟩
    · simp [requiredOk] at hreq
    rcases ct with _ | t
    · simp [requiredOk] at hreq
    rcases cf with _ | fl
    · simp [requiredOk] at hreq
    rcases chu with _ | hu
    · simp [requiredOk] at hreq
    rcases cwi with _ | wi
    · simp [requiredOk] at hreq
    rcases wde with _ | de
    · simp [requiredOk] at hreq
    rcases wic with _ | ic
    · simp [requiredOk] at hreq
    rcases dlt with _ | ⟨ma0, mi0⟩
    · simp [requiredOk] at hreq
    rcases ma0 with _ | ma
    · simp [requiredOk] at hreq
    rcases mi0 with _ | mi
    · simp [requiredOk] at hreq
    rcases dlp with _ | po
    · simp [requiredOk] at hreq
    simp only [requiredOk, Option.isSome_some, Bool.and_self, Bool.true_and,
      Bool.and_eq_true] at hreq
    have hev := getEvents_ok_of_all (alr.getD [])
      (by simpa using hreq)
    exact ⟨_, process_ok_literal t fl hu wi de ic ws ma mi po dls alr _ hev⟩

/-- A raw response carrying every one of the nine spec-required fields but
whose single alert entry lacks its `event` key. -/
def rawC1cex : RawResponse :=
  ⟨some ⟨some 70, some 68, some 45, some 5, some [⟨some "clear sky", some "01d"⟩]⟩,
   some [⟨some ⟨some 80, some 60⟩, some (35/100)⟩], some [⟨none⟩]⟩

/-- **C1 counterexample.** `rawC1cex` contains all nine required fields of
the claim, yet extraction fails (with `KeyError("event")` from the alert
summary join), refuting "for every raw response containing all required
fields, extraction succeeds". -/
theorem extraction_required_fields_cex :
    specRequiredPresent rawC1cex = true ∧
    process_weather_data rawC1cex = .error (.keyError "event") := by
  exact ⟨rfl, rfl⟩

/-- **C1 (amended).** Extraction fails — propagating the raised error, so
no partial record is produced or forwarded — exactly when some dereferenced
field is missing: one of the nine required fields, a nonempty `weather` or
`daily` sequence, or the `event` key of some alert entry.  When the failure
is a `KeyError`, the error names a field genuinely absent from the
response; an empty `weather` or `daily` sequence instead raises an unnamed
index error.  When everything is present extraction succeeds with a fully
populated record. -/
theorem extraction_fails_iff_fields_missing (d : RawResponse) :
    ((∃ rec, process_weather_data d = .ok rec) ↔ requiredOk d = true) ∧
    (∀ k, process_weather_data d = .error (.keyError k) →
      fieldAbsent d k = true) :=
  ⟨process_ok_iff_requiredOk d, fun k h => process_keyError_names d k h⟩

/-- A raw response whose `current['humidity']` key is missing. -/
def rawC1miss : RawResponse :=
  ⟨some ⟨some 70, some 68, none, some 5, some [⟨some "clear sky", some "01d"⟩]⟩,
   some [⟨some ⟨some 80, some 60⟩, some (35/100)⟩], none⟩

/-- Witness for the amended C1: a response missing `humidity` fails with a
`KeyError` naming `humidity`, and `humidity` really is the absent field. -/
theorem extraction_fails_iff_fields_missing_witness :
    fieldAbsent rawC1miss "humidity" = true :=
  (extraction_fails_iff_fields_missing rawC1miss).2 "humidity" rfl

end Weather
